import Mathlib

/-!
Shallow embedding of `graph/options/options.go` (kiali): graph request
option parsing, namespace/time-window resolution, and appender-pipeline
assembly, together with theorems settling the specification's claims.

Conventions of the embedding:
* Instants (`time.Time`) are `Option Int` — nanoseconds since the Unix
  epoch, with `none` standing for Go's zero `time.Time` (`IsZero`).
  Durations (`time.Duration`) are `Int` nanoseconds.  `queryTime` is an
  `Int` in Unix seconds, as in the Go code; `time.Unix(queryTime, 0)` is
  the instant `queryTime * 1000000000`.
* Fallible external parsers (`model.ParseDuration`, `strconv.ParseBool`,
  `strconv.ParseInt`) are not part of this repository; a query parameter
  that the Go code first compares against the empty string is embedded by
  its outcome, `Option (String × Option α)`: `none` for the empty/absent
  value, `some (raw, none)` for a non-empty value `raw` that fails to
  parse, `some (raw, some v)` for a non-empty value `raw` parsing to `v`.
  The `appenders` and `responseTimeQuantile` parameters are checked for
  *presence* in Go (`params["..."]`), so their outer `Option` marks
  presence of the key instead.
* `graph.BadRequest`, `graph.Forbidden` and `graph.Error` panic in Go,
  aborting resolution at once; resolution is therefore an `Except Err`
  computation whose first error wins.
* The Go `float64` response-time quantile is represented by `Rat`; the
  program only stores it, never computes with it.
* The namespace authorization gateway (`business` package) is external;
  it enters `NewOptions` as a function from the token to the accessible
  namespace map, and `mux.Vars` path variables enter as `Request` fields.
-/

namespace Kiali

/-- Modelled from the spec: the graph-type enumeration constants live in the
external `graph` package (`graph.GraphTypeApp` …); the spec fixes the enum as
app, service, versionedApp, workload. -/
def GraphTypeApp : String := "app"

/-- Modelled from the spec: `graph.GraphTypeService`. -/
def GraphTypeService : String := "service"

/-- Modelled from the spec: `graph.GraphTypeVersionedApp`. -/
def GraphTypeVersionedApp : String := "versionedApp"

/-- Modelled from the spec: `graph.GraphTypeWorkload`. -/
def GraphTypeWorkload : String := "workload"

/-- Modelled from the spec: `appender.DeadNodeAppenderName`, the request token
naming the DeadNode stage (the `appender` package is not under `src/`). -/
def DeadNodeAppenderName : String := "deadNode"

/-- Modelled from the spec: `appender.ServiceEntryAppenderName`. -/
def ServiceEntryAppenderName : String := "serviceEntry"

/-- Modelled from the spec: `appender.IstioAppenderName`. -/
def IstioAppenderName : String := "istio"

/-- Modelled from the spec: `appender.ResponseTimeAppenderName`. -/
def ResponseTimeAppenderName : String := "responseTime"

/-- Modelled from the spec: `appender.SecurityPolicyAppenderName`. -/
def SecurityPolicyAppenderName : String := "securityPolicy"

/-- Modelled from the spec: `appender.SidecarsCheckAppenderName`. -/
def SidecarsCheckAppenderName : String := "sidecarsCheck"

/-- Modelled from the spec: `appender.UnusedNodeAppenderName`. -/
def UnusedNodeAppenderName : String := "unusedNode"

/-- Modelled from the spec: `appender.DefaultQuantile`, the default
response-time quantile constant of the external `appender` package; the
claims depend only on it being a fixed constant, not on its value. -/
def DefaultQuantile : Rat := 0.95

/-- `options.go` constant `GroupByApp`. -/
def GroupByApp : String := "app"

/-- `options.go` constant `GroupByNone`. -/
def GroupByNone : String := "none"

/-- `options.go` constant `GroupByVersion`. -/
def GroupByVersion : String := "version"

/-- `options.go` constant `NamespaceIstio`. -/
def NamespaceIstio : String := "istio-system"

/-- `options.go` constant `VendorCytoscape`. -/
def VendorCytoscape : String := "cytoscape"

/-- `options.go` constant `defaultDuration` = "10m", parsed: 600 s in ns. -/
def defaultDuration : Int := 600 * 1000000000

/-- `options.go` constant `defaultGraphType`. -/
def defaultGraphType : String := GraphTypeWorkload

/-- `options.go` constant `defaultGroupBy`. -/
def defaultGroupBy : String := GroupByNone

/-- `options.go` constant `defaultIncludeIstio`. -/
def defaultIncludeIstio : Bool := false

/-- `options.go` constant `defaultInjectServiceNodes`. -/
def defaultInjectServiceNodes : Bool := false

/-- `options.go` constant `defaultVendor`. -/
def defaultVendor : String := VendorCytoscape

/-- `options.go` constant `graphKindNamespace`. -/
def graphKindNamespace : String := "namespace"

/-- `options.go` constant `graphKindNode`. -/
def graphKindNode : String := "node"

/-- `graph.NamespaceInfo` as used by `options.go`: a name plus the clamped
lookback duration for that namespace. -/
structure NamespaceInfo where
  name : String
  duration : Int
deriving DecidableEq, Repr

/-- The configured appender stages (`appender` package structs as built by
`parseAppenders`): each constructor carries exactly the configuration that
`parseAppenders` stores into the corresponding struct. -/
inductive Appender where
  | serviceEntry (accessibleNamespaces : List (String × Option Int))
  | deadNode
  | responseTime (quantile : Rat) (graphType : String) (injectServiceNodes : Bool)
      (includeIstio : Bool) (namespaces : List (String × NamespaceInfo)) (queryTime : Int)
  | securityPolicy (graphType : String) (includeIstio : Bool) (injectServiceNodes : Bool)
      (namespaces : List (String × NamespaceInfo)) (queryTime : Int)
  | unusedNode (graphType : String) (isNodeGraph : Bool)
  | istio
  | sidecarsCheck
deriving DecidableEq, Repr

/-- The bare stage kind of a configured appender, for order statements. -/
inductive AppenderKind where
  | serviceEntry
  | deadNode
  | responseTime
  | securityPolicy
  | unusedNode
  | istio
  | sidecarsCheck
deriving DecidableEq, Repr

/-- Forget an appender's configuration, keeping its kind. -/
def Appender.kind : Appender → AppenderKind
  | .serviceEntry _ => .serviceEntry
  | .deadNode => .deadNode
  | .responseTime _ _ _ _ _ _ => .responseTime
  | .securityPolicy _ _ _ _ _ => .securityPolicy
  | .unusedNode _ _ => .unusedNode
  | .istio => .istio
  | .sidecarsCheck => .sidecarsCheck

/-- The fixed emission order of `parseAppenders` (source lines 270-322). -/
def fixedAppenderOrder : List AppenderKind :=
  [.serviceEntry, .deadNode, .responseTime, .securityPolicy, .unusedNode, .istio, .sidecarsCheck]

/-- The three failure channels of `graph.BadRequest`, `graph.Forbidden` and
`graph.Error` / `graph.CheckError` (each panics, aborting resolution). -/
inductive Err where
  | badRequest (msg : String)
  | forbidden (msg : String)
  | internal (msg : String)
deriving DecidableEq, Repr

/-- Whether a resolution outcome is a `BadRequest` failure. -/
def isBadRequest {α : Type} : Except Err α → Prop
  | .error (.badRequest _) => True
  | _ => False

instance {α : Type} (x : Except Err α) : Decidable (isBadRequest x) := by
  unfold isBadRequest
  split <;> infer_instance

/-- `strings.TrimSpace`, structurally on the character list. -/
def trimSpace (s : String) : String :=
  String.mk (((s.data.dropWhile Char.isWhitespace).reverse.dropWhile Char.isWhitespace).reverse)

/-- Helper for `splitComma`: `cur` holds the current field reversed. -/
def splitCommaAux : List Char → List Char → List String
  | [], cur => [String.mk cur.reverse]
  | c :: cs, cur =>
    if c = ',' then String.mk cur.reverse :: splitCommaAux cs []
    else splitCommaAux cs (c :: cur)

/-- `strings.Split(s, ",")`: always at least one field; `"" ↦ [""]`. -/
def splitComma (s : String) : List String := splitCommaAux s.data []

/-- The inbound request as `NewOptions` sees it: `mux.Vars` path variables
(empty string = unset) and query parameters, external parses abstracted to
their outcomes as described in the file header. -/
structure Request where
  app : String := ""
  namespaceVar : String := ""
  service : String := ""
  version : String := ""
  workload : String := ""
  durationParam : Option (String × Option Int) := none
  graphTypeParam : String := ""
  groupByParam : String := ""
  includeIstioParam : Option (String × Option Bool) := none
  injectServiceNodesParam : Option (String × Option Bool) := none
  namespacesParam : String := ""
  queryTimeParam : Option (String × Option Int) := none
  vendorParam : String := ""
  appendersParam : Option String := none
  responseTimeQuantileParam : Option (String × Option Rat) := none
  tokenCtx : Option (Option String) := none
deriving DecidableEq

/-- The `Options` aggregate of `options.go` (node options and vendor options
flattened, as in the Go embedding of the sub-structs). -/
structure Options where
  accessibleNamespaces : List (String × Option Int)
  appenders : List Appender
  includeIstio : Bool
  injectServiceNodes : Bool
  namespaces : List (String × NamespaceInfo)
  vendor : String
  app : String
  namespaceVar : String
  service : String
  version : String
  workload : String
  duration : Int
  graphType : String
  groupBy : String
  queryTime : Int
deriving DecidableEq

/-- `Options.GetGraphKind` (source lines 221-230). -/
def GetGraphKind (o : Options) : String :=
  if o.app != "" || o.version != "" || o.workload != "" || o.service != "" then
    graphKindNode
  else
    graphKindNamespace

/-- `resolveNamespaceDuration` (source lines 351-369): clamp the requested
range to the namespace's lifetime relative to the reference instant.
`nowNs` models the `time.Now()` call inside the function. -/
def resolveNamespaceDuration (nsCreationTime : Option Int) (requestedRange : Int)
    (queryTime : Int) (nowNs : Int) : Int :=
  match nsCreationTime with
  | none => requestedRange
  | some created =>
    let referenceTime : Int := if queryTime ≠ 0 then queryTime * 1000000000 else nowNs
    let nsLifetime := referenceTime - created
    if nsLifetime < requestedRange then nsLifetime else requestedRange

/-- Duration validation step of `NewOptions` (source lines 92-100). -/
def resolveDuration (p : Option (String × Option Int)) : Except Err Int :=
  match p with
  | none => .ok defaultDuration
  | some (raw, none) => .error (.badRequest ("Invalid duration [" ++ raw ++ "]"))
  | some (_, some d) => .ok d

/-- GraphType validation step of `NewOptions` (source lines 101-105). -/
def resolveGraphType (p : String) : Except Err String :=
  if p = "" then .ok defaultGraphType
  else if p ≠ GraphTypeApp ∧ p ≠ GraphTypeService ∧ p ≠ GraphTypeVersionedApp ∧ p ≠ GraphTypeWorkload then
    .error (.badRequest ("Invalid graphType [" ++ p ++ "]"))
  else .ok p

/-- App node-graph restriction of `NewOptions` (source lines 106-109): only
the `app` path variable triggers this check. -/
def checkAppGraphType (app graphType : String) : Except Err Unit :=
  if app ≠ "" ∧ graphType ≠ GraphTypeApp ∧ graphType ≠ GraphTypeVersionedApp then
    .error (.badRequest ("Invalid graphType [" ++ graphType ++
      "]. This node detail graph supports only graphType app or versionedApp."))
  else .ok ()

/-- GroupBy validation step of `NewOptions` (source lines 110-114). -/
def resolveGroupBy (p : String) : Except Err String :=
  if p = "" then .ok defaultGroupBy
  else if p ≠ GroupByApp ∧ p ≠ GroupByNone ∧ p ≠ GroupByVersion then
    .error (.badRequest ("Invalid groupBy [" ++ p ++ "]"))
  else .ok p

/-- Boolean parameter validation of `NewOptions` (source lines 115-132),
shared by `includeIstio` and `injectServiceNodes`. -/
def resolveBoolParam (label : String) (p : Option (String × Option Bool)) (dflt : Bool) :
    Except Err Bool :=
  match p with
  | none => .ok dflt
  | some (raw, none) => .error (.badRequest ("Invalid " ++ label ++ " [" ++ raw ++ "]"))
  | some (_, some b) => .ok b

/-- QueryTime validation step of `NewOptions` (source lines 133-141). -/
def resolveQueryTime (p : Option (String × Option Int)) (now : Int) : Except Err Int :=
  match p with
  | none => .ok now
  | some (raw, none) => .error (.badRequest ("Invalid queryTime [" ++ raw ++ "]"))
  | some (_, some t) => .ok t

/-- Vendor validation step of `NewOptions` (source lines 142-146). -/
def resolveVendor (p : String) : Except Err String :=
  if p = "" then .ok defaultVendor
  else if p ≠ VendorCytoscape then .error (.badRequest ("Invalid vendor [" ++ p ++ "]"))
  else .ok p

/-- Token extraction from the request context (source lines 151-161). -/
def resolveToken (ctx : Option (Option String)) : Except Err String :=
  match ctx with
  | none => .error (.internal "token missing in request context")
  | some none => .error (.internal "token is not of type string")
  | some (some t) => .ok t

/-- Go map lookup `accessibleNamespaces[namespaceToken]` on the association
list embedding of the accessible-namespace map. -/
def lookupNamespace (accessible : List (String × Option Int)) (ns : String) :
    Option (Option Int) :=
  (accessible.find? (fun p => p.1 == ns)).map Prod.snd

/-- Go map store `namespaceMap[namespaceToken] = ...` on the association
list embedding: overwrite an existing key, else append. -/
def insertNamespace (m : List (String × NamespaceInfo)) (k : String) (v : NamespaceInfo) :
    List (String × NamespaceInfo) :=
  if m.any (fun p => p.1 == k) then m.map (fun p => if p.1 == k then (k, v) else p)
  else m ++ [(k, v)]

/-- The namespace loop of `NewOptions` (source lines 176-186): trim each
token, require it in the accessible set (else `Forbidden`), and record its
clamped duration. -/
def processNamespaces (tokens : List String) (accessible : List (String × Option Int))
    (duration : Int) (queryTime : Int) (nowNs : Int) (acc : List (String × NamespaceInfo)) :
    Except Err (List (String × NamespaceInfo)) :=
  match tokens with
  | [] => .ok acc
  | tok :: rest =>
    let ns := trimSpace tok
    match lookupNamespace accessible ns with
    | some creationTime =>
      processNamespaces rest accessible duration queryTime nowNs
        (insertNamespace acc ns
          { name := ns,
            duration := resolveNamespaceDuration creationTime duration queryTime nowNs })
    | none => .error (.forbidden ("Requested namespace [" ++ ns ++ "] is not accessible."))

/-- The requested-appender set of `parseAppenders` (Go map from stage name
to `true`, source line 233), one flag per known stage. -/
structure RequestedAppenders where
  deadNode : Bool := false
  serviceEntry : Bool := false
  istio : Bool := false
  responseTime : Bool := false
  securityPolicy : Bool := false
  sidecarsCheck : Bool := false
  unusedNode : Bool := false
deriving DecidableEq, Repr

/-- One iteration of the `parseAppenders` request loop (source lines
236-257): switch on the trimmed token, skip empty, reject unknown. -/
def addRequested (r : RequestedAppenders) (tok : String) : Except Err RequestedAppenders :=
  let t := trimSpace tok
  if t = DeadNodeAppenderName then .ok { r with deadNode := true }
  else if t = ServiceEntryAppenderName then .ok { r with serviceEntry := true }
  else if t = IstioAppenderName then .ok { r with istio := true }
  else if t = ResponseTimeAppenderName then .ok { r with responseTime := true }
  else if t = SecurityPolicyAppenderName then .ok { r with securityPolicy := true }
  else if t = SidecarsCheckAppenderName then .ok { r with sidecarsCheck := true }
  else if t = UnusedNodeAppenderName then .ok { r with unusedNode := true }
  else if t = "" then .ok r
  else .error (.badRequest ("Invalid appender [" ++ t ++ "]"))

/-- The full `parseAppenders` request loop over the split token list. -/
def collectRequested : List String → RequestedAppenders → Except Err RequestedAppenders
  | [], r => .ok r
  | tok :: rest, r =>
    match addRequested r tok with
    | .ok r2 => collectRequested rest r2
    | .error e => .error e

/-- Quantile resolution inside `parseAppenders` (source lines 281-286):
default unless the parameter is present and parses. -/
def quantileOf (p : Option (String × Option Rat)) : Rat :=
  match p with
  | some (_, some q) => q
  | _ => DefaultQuantile

/-- The emission phase of `parseAppenders` (source lines 268-324): stages in
the fixed order, each configured from the descriptor. -/
def buildAppenders (req : RequestedAppenders) (allAppenders : Bool)
    (quantileParam : Option (String × Option Rat)) (o : Options) : List Appender :=
  (if req.serviceEntry || allAppenders then [Appender.serviceEntry o.accessibleNamespaces] else [])
  ++ (if req.deadNode || allAppenders then [Appender.deadNode] else [])
  ++ (if req.responseTime || allAppenders then
        [Appender.responseTime (quantileOf quantileParam) o.graphType o.injectServiceNodes
          o.includeIstio o.namespaces o.queryTime] else [])
  ++ (if req.securityPolicy || allAppenders then
        [Appender.securityPolicy o.graphType o.includeIstio o.injectServiceNodes
          o.namespaces o.queryTime] else [])
  ++ (if req.unusedNode || allAppenders then
        [Appender.unusedNode o.graphType (o.app != "" || o.workload != "" || o.service != "")]
      else [])
  ++ (if req.istio || allAppenders then [Appender.istio] else [])
  ++ (if req.sidecarsCheck || allAppenders then [Appender.sidecarsCheck] else [])

/-- `parseAppenders` (source lines 232-325): "all appenders" when the
parameter is absent, else exactly the recognized requested stages. -/
def parseAppenders (appendersParam : Option String)
    (quantileParam : Option (String × Option Rat)) (o : Options) :
    Except Err (List Appender) :=
  match appendersParam with
  | none => .ok (buildAppenders {} true quantileParam o)
  | some s =>
    match collectRequested (splitComma s) {} with
    | .ok req => .ok (buildAppenders req false quantileParam o)
    | .error e => .error e

/-- The effective namespaces string (source lines 165-170): a set namespace
path variable overrides the `namespaces` query parameter. -/
def effectiveNamespaces (r : Request) : String :=
  if r.namespaceVar != "" then r.namespaceVar else r.namespacesParam

/-- `NewOptions` (source lines 68-218): validate and default every
parameter in source order, resolve namespaces against the gateway's
accessible set, force service-graph injection, then assemble appenders.
`gateway` stands for `getAccessibleNamespaces` / the external `business`
lookup; `now` is the wall clock in Unix seconds. -/
def NewOptions (r : Request) (gateway : String → List (String × Option Int)) (now : Int) :
    Except Err Options :=
  match resolveDuration r.durationParam with
  | .error e => .error e
  | .ok duration =>
  match resolveGraphType r.graphTypeParam with
  | .error e => .error e
  | .ok graphType =>
  match checkAppGraphType r.app graphType with
  | .error e => .error e
  | .ok _ =>
  match resolveGroupBy r.groupByParam with
  | .error e => .error e
  | .ok groupBy =>
  match resolveBoolParam "includeIstio" r.includeIstioParam defaultIncludeIstio with
  | .error e => .error e
  | .ok includeIstio =>
  match resolveBoolParam "injectServiceNodes" r.injectServiceNodesParam defaultInjectServiceNodes with
  | .error e => .error e
  | .ok injectServiceNodes0 =>
  match resolveQueryTime r.queryTimeParam now with
  | .error e => .error e
  | .ok queryTime =>
  match resolveVendor r.vendorParam with
  | .error e => .error e
  | .ok vendor =>
  match resolveToken r.tokenCtx with
  | .error e => .error e
  | .ok token =>
  let accessibleNamespaces := gateway token
  let namespaces := effectiveNamespaces r
  if namespaces = "" then
    .error (.badRequest "At least one namespace must be specified via the namespaces query parameter.")
  else
    match processNamespaces (splitComma namespaces) accessibleNamespaces duration queryTime
        (now * 1000000000) [] with
    | .error e => .error e
    | .ok namespaceMap =>
      let injectServiceNodes := if graphType = GraphTypeService then true else injectServiceNodes0
      let options : Options :=
        { accessibleNamespaces := accessibleNamespaces
          appenders := []
          includeIstio := includeIstio
          injectServiceNodes := injectServiceNodes
          namespaces := namespaceMap
          vendor := vendor
          app := r.app
          namespaceVar := r.namespaceVar
          service := r.service
          version := r.version
          workload := r.workload
          duration := duration
          graphType := graphType
          groupBy := groupBy
          queryTime := queryTime }
      match parseAppenders r.appendersParam r.responseTimeQuantileParam options with
      | .error e => .error e
      | .ok appenders => .ok { options with appenders := appenders }

/-- The request token naming a stage kind (`appender.*AppenderName`). -/
def appenderKindName : AppenderKind → String
  | .serviceEntry => ServiceEntryAppenderName
  | .deadNode => DeadNodeAppenderName
  | .responseTime => ResponseTimeAppenderName
  | .securityPolicy => SecurityPolicyAppenderName
  | .unusedNode => UnusedNodeAppenderName
  | .istio => IstioAppenderName
  | .sidecarsCheck => SidecarsCheckAppenderName

/-- The selection flag of a stage kind in the requested-appender set. -/
def requestedFlag (req : RequestedAppenders) : AppenderKind → Bool
  | .serviceEntry => req.serviceEntry
  | .deadNode => req.deadNode
  | .responseTime => req.responseTime
  | .securityPolicy => req.securityPolicy
  | .unusedNode => req.unusedNode
  | .istio => req.istio
  | .sidecarsCheck => req.sidecarsCheck

/-- Whether a raw request token is accepted by the `parseAppenders` switch:
one of the seven stage names, or empty, after trimming. -/
def validAppenderTok (tok : String) : Bool :=
  trimSpace tok == DeadNodeAppenderName || trimSpace tok == ServiceEntryAppenderName ||
  trimSpace tok == IstioAppenderName || trimSpace tok == ResponseTimeAppenderName ||
  trimSpace tok == SecurityPolicyAppenderName || trimSpace tok == SidecarsCheckAppenderName ||
  trimSpace tok == UnusedNodeAppenderName || trimSpace tok == ""

/-- Sample descriptor used to instantiate universally quantified theorems. -/
def sampleOptions : Options :=
  { accessibleNamespaces := []
    appenders := []
    includeIstio := false
    injectServiceNodes := false
    namespaces := []
    vendor := VendorCytoscape
    app := ""
    namespaceVar := ""
    service := ""
    version := ""
    workload := ""
    duration := defaultDuration
    graphType := GraphTypeWorkload
    groupBy := GroupByNone
    queryTime := 0 }

/-- Sample authorization gateway: every caller may access `bookinfo`
(created at instant 1000000000 ns) and `istio-system` (zero creation time). -/
def sampleGateway : String → List (String × Option Int) :=
  fun _ => [("bookinfo", some 1000000000), ("istio-system", none)]

/-- All parameter-validation steps of `NewOptions` that precede namespace
processing succeed on this request (source lines 92-146). -/
def preNamespaceChecksPass (r : Request) (now : Int) : Bool :=
  (resolveDuration r.durationParam).isOk &&
  (match resolveGraphType r.graphTypeParam with
   | .ok gt => (checkAppGraphType r.app gt).isOk
   | .error _ => false) &&
  (resolveGroupBy r.groupByParam).isOk &&
  (resolveBoolParam "includeIstio" r.includeIstioParam defaultIncludeIstio).isOk &&
  (resolveBoolParam "injectServiceNodes" r.injectServiceNodesParam defaultInjectServiceNodes).isOk &&
  (resolveQueryTime r.queryTimeParam now).isOk &&
  (resolveVendor r.vendorParam).isOk

/-- A request forcing service-graph injection while explicitly passing
`injectServiceNodes=false`. -/
def svcRequest : Request :=
  { namespaceVar := "bookinfo", graphTypeParam := GraphTypeService,
    injectServiceNodesParam := some ("false", some false), tokenCtx := some (some "token") }

/-- A request with a non-app node-selector path variable (`service`) and an
explicit `graphType=workload`. -/
def workloadServiceRequest : Request :=
  { service := "svc", namespaceVar := "bookinfo", graphTypeParam := GraphTypeWorkload,
    tokenCtx := some (some "token") }

/-- The request of the spec's end-to-end example: `app=reviews`,
`namespace=bookinfo`, `graphType=service`. -/
def appServiceRequest : Request :=
  { app := "reviews", namespaceVar := "bookinfo", graphTypeParam := GraphTypeService,
    tokenCtx := some (some "token") }

/-- The nearby service-node variant of the end-to-end example:
`service=reviews`, `namespace=bookinfo`, `graphType=service`. -/
def nodeServiceRequest : Request :=
  { service := "reviews", namespaceVar := "bookinfo", graphTypeParam := GraphTypeService,
    tokenCtx := some (some "token") }

/-- A request naming one authorized and one unauthorized namespace. -/
def forbiddenRequest : Request :=
  { namespacesParam := "bookinfo, other", tokenCtx := some (some "token") }

/-- A request whose namespace path variable overrides the query parameter. -/
def overrideRequest : Request :=
  { namespaceVar := "bookinfo", namespacesParam := "base", tokenCtx := some (some "token") }

/-- A request with the `app` path variable set and `graphType=workload`. -/
def appWorkloadRequest : Request :=
  { app := "reviews", namespaceVar := "bookinfo", graphTypeParam := GraphTypeWorkload,
    tokenCtx := some (some "token") }

instance {α : Type} [DecidableEq α] : DecidableEq (Except Err α)
  | .ok x, .ok y => decidable_of_iff (x = y) (by simp)
  | .ok _, .error _ => .isFalse (by simp)
  | .error _, .ok _ => .isFalse (by simp)
  | .error e, .error f => decidable_of_iff (e = f) (by simp)

/-- A successful `Except` computation carries a value. -/
theorem exists_ok_of_isOk {ε α : Type} {x : Except ε α} (h : x.isOk = true) :
    ∃ a, x = .ok a := by
  cases x with
  | ok a => exact ⟨a, rfl⟩
  | error e => exact absurd h (by simp [Except.isOk, Except.toBool])

/-- `List.any` is invariant under permutation of the list. -/
theorem perm_any {α : Type} {l₁ l₂ : List α} (f : α → Bool) (h : l₁.Perm l₂) :
    l₁.any f = l₂.any f := by
  rcases h1 : l₁.any f
  · rcases h2 : l₂.any f
    · rfl
    · simp only [List.any_eq_true] at h2
      obtain ⟨x, hx, hfx⟩ := h2
      have h3 : l₁.any f = true := List.any_eq_true.mpr ⟨x, (h.mem_iff).mpr hx, hfx⟩
      rw [h1] at h3; exact h3
  · simp only [List.any_eq_true] at h1
    obtain ⟨x, hx, hfx⟩ := h1
    exact (List.any_eq_true.mpr ⟨x, (h.mem_iff).mp hx, hfx⟩).symm

/-- `List.all` is invariant under permutation of the list. -/
theorem perm_all {α : Type} {l₁ l₂ : List α} (f : α → Bool) (h : l₁.Perm l₂) :
    l₁.all f = l₂.all f := by
  rcases h1 : l₁.all f
  · rcases h2 : l₂.all f
    · rfl
    · simp only [List.all_eq_true] at h2
      simp only [List.all_eq_false] at h1
      obtain ⟨x, hx, hfx⟩ := h1
      exact absurd (h2 x ((h.mem_iff).mp hx)) (by simp [hfx])
  · simp only [List.all_eq_true] at h1
    exact (List.all_eq_true.mpr fun x hx => h1 x ((h.mem_iff).mpr hx)).symm

set_option maxHeartbeats 2000000 in
/-- Characterization of a successful `parseAppenders` request loop: each
stage flag ends up set iff it started set or some token names the stage. -/
theorem collectRequested_ok_fields (toks : List String) (init r : RequestedAppenders)
    (h : collectRequested toks init = .ok r) :
    r.deadNode = (init.deadNode || toks.any (fun tok => trimSpace tok == DeadNodeAppenderName)) ∧
    r.serviceEntry = (init.serviceEntry || toks.any (fun tok => trimSpace tok == ServiceEntryAppenderName)) ∧
    r.istio = (init.istio || toks.any (fun tok => trimSpace tok == IstioAppenderName)) ∧
    r.responseTime = (init.responseTime || toks.any (fun tok => trimSpace tok == ResponseTimeAppenderName)) ∧
    r.securityPolicy = (init.securityPolicy || toks.any (fun tok => trimSpace tok == SecurityPolicyAppenderName)) ∧
    r.sidecarsCheck = (init.sidecarsCheck || toks.any (fun tok => trimSpace tok == SidecarsCheckAppenderName)) ∧
    r.unusedNode = (init.unusedNode || toks.any (fun tok => trimSpace tok == UnusedNodeAppenderName)) := by
  induction toks generalizing init with
  | nil =>
    simp only [collectRequested] at h
    injection h with h
    subst h
    simp
  | cons tok rest ih =>
    simp only [collectRequested] at h
    rcases ha : addRequested init tok with e | r2
    · rw [ha] at h; exact absurd h (by simp)
    · rw [ha] at h
      obtain ⟨i1, i2, i3, i4, i5, i6, i7⟩ := ih r2 h
      simp only [addRequested] at ha
      repeat' split at ha
      all_goals
        first
        | (injection ha with ha
           subst ha
           refine ⟨?_, ?_, ?_, ?_, ?_, ?_, ?_⟩ <;>
             simp_all [List.any_cons, DeadNodeAppenderName, ServiceEntryAppenderName,
               IstioAppenderName, ResponseTimeAppenderName, SecurityPolicyAppenderName,
               SidecarsCheckAppenderName, UnusedNodeAppenderName])
        | exact absurd ha (by simp)

/-- An invalid token makes the `parseAppenders` switch fail with the
`Invalid appender` message. -/
theorem addRequested_error_of_invalid (init : RequestedAppenders) (tok : String)
    (h : validAppenderTok tok = false) :
    addRequested init tok = .error (.badRequest ("Invalid appender [" ++ trimSpace tok ++ "]")) := by
  simp only [validAppenderTok, Bool.or_eq_false_iff, beq_eq_false_iff_ne, ne_eq] at h
  obtain ⟨⟨⟨⟨⟨⟨⟨h1, h2⟩, h3⟩, h4⟩, h5⟩, h6⟩, h7⟩, h8⟩ := h
  simp [addRequested, h1, h2, h3, h4, h5, h6, h7, h8]

/-- A valid token passes the `parseAppenders` switch. -/
theorem addRequested_ok_of_valid (init : RequestedAppenders) (tok : String)
    (h : validAppenderTok tok = true) :
    ∃ r2, addRequested init tok = .ok r2 := by
  simp only [validAppenderTok, Bool.or_eq_true, beq_iff_eq] at h
  unfold addRequested
  rcases h with (((((((h | h) | h) | h) | h) | h) | h) | h) <;>
    simp [h, DeadNodeAppenderName, ServiceEntryAppenderName, IstioAppenderName,
      ResponseTimeAppenderName, SecurityPolicyAppenderName, SidecarsCheckAppenderName,
      UnusedNodeAppenderName]

/-- If every token is valid, the `parseAppenders` request loop succeeds. -/
theorem collectRequested_ok_of_all_valid (toks : List String) (init : RequestedAppenders)
    (h : toks.all validAppenderTok = true) :
    ∃ r2, collectRequested toks init = .ok r2 := by
  induction toks generalizing init with
  | nil => exact ⟨init, rfl⟩
  | cons tok rest ih =>
    simp only [List.all_cons, Bool.and_eq_true] at h
    obtain ⟨r2, hr2⟩ := addRequested_ok_of_valid init tok h.1
    obtain ⟨r3, hr3⟩ := ih r2 h.2
    exact ⟨r3, by simp [collectRequested, hr2, hr3]⟩

/-- If some token is invalid, the `parseAppenders` request loop fails with
a `BadRequest`. -/
theorem collectRequested_badRequest (toks : List String) (init : RequestedAppenders)
    (h : toks.all validAppenderTok = false) :
    ∃ msg, collectRequested toks init = .error (.badRequest msg) := by
  induction toks generalizing init with
  | nil => simp at h
  | cons tok rest ih =>
    rcases hv : validAppenderTok tok
    · exact ⟨"Invalid appender [" ++ trimSpace tok ++ "]",
        by simp [collectRequested, addRequested_error_of_invalid init tok hv]⟩
    · have hrest : rest.all validAppenderTok = false := by
        rcases hr : rest.all validAppenderTok
        · rfl
        · rw [List.all_cons, hv, hr] at h; exact absurd h (by simp)
      obtain ⟨r2, hr2⟩ := addRequested_ok_of_valid init tok hv
      obtain ⟨msg, hmsg⟩ := ih r2 hrest
      exact ⟨msg, by simp [collectRequested, hr2, hmsg]⟩

/-- A successful `parseAppenders` request loop had only valid tokens. -/
theorem collectRequested_all_valid_of_ok (toks : List String) (init r : RequestedAppenders)
    (h : collectRequested toks init = .ok r) :
    toks.all validAppenderTok = true := by
  rcases hv : toks.all validAppenderTok
  · obtain ⟨msg, hmsg⟩ := collectRequested_badRequest toks init hv
    rw [hmsg] at h; exact absurd h (by simp)
  · rfl

/-- The emission phase lists stage kinds in the fixed order, filtered to the
selected flags (or everything in "all appenders" mode). -/
theorem buildAppenders_map_kind (req : RequestedAppenders) (allAppenders : Bool)
    (p : Option (String × Option Rat)) (o : Options) :
    (buildAppenders req allAppenders p o).map Appender.kind =
      fixedAppenderOrder.filter (fun k => requestedFlag req k || allAppenders) := by
  obtain ⟨d, se, ist, rt, sp, sc, un⟩ := req
  cases d <;> cases se <;> cases ist <;> cases rt <;> cases sp <;> cases sc <;> cases un <;>
    cases allAppenders <;> rfl

/-- A successful explicit `parseAppenders` call emits exactly the stage
kinds named by some token, in the fixed table order. -/
theorem parseAppenders_some_kinds (s : String) (p : Option (String × Option Rat))
    (o : Options) (aps : List Appender)
    (h : parseAppenders (some s) p o = .ok aps) :
    aps.map Appender.kind = fixedAppenderOrder.filter
      (fun k => (splitComma s).any (fun tok => trimSpace tok == appenderKindName k)) := by
  rcases hc : collectRequested (splitComma s) {} with e | req
  · simp only [parseAppenders] at h
    rw [hc] at h
    exact absurd h (by simp)
  · simp only [parseAppenders] at h
    rw [hc] at h
    injection h with h
    subst h
    rw [buildAppenders_map_kind]
    refine List.filter_congr ?_
    intro k _
    obtain ⟨e1, e2, e3, e4, e5, e6, e7⟩ := collectRequested_ok_fields (splitComma s) {} req hc
    cases k <;> simp [requestedFlag, appenderKindName, e1, e2, e3, e4, e5, e6, e7]

/-- C2: the assembled pipeline emits the selected stages in the fixed order
ServiceEntry, DeadNode, ResponseTime, SecurityPolicy, UnusedNode, Istio,
SidecarsCheck, and is invariant under reordering the names in the
`appenders` parameter; requesting "sidecarsCheck,serviceEntry" yields
[ServiceEntry, SidecarsCheck], never the reverse. -/
theorem parseAppenders_order_invariant (s₁ s₂ : String) (p : Option (String × Option Rat))
    (o : Options) (aps : List Appender)
    (hperm : (splitComma s₁).Perm (splitComma s₂))
    (h : parseAppenders (some s₁) p o = .ok aps) :
    parseAppenders (some s₂) p o = .ok aps ∧
    aps.map Appender.kind = fixedAppenderOrder.filter
      (fun k => (splitComma s₁).any (fun tok => trimSpace tok == appenderKindName k)) ∧
    (parseAppenders (some "sidecarsCheck,serviceEntry") p o).map (List.map Appender.kind) =
      .ok [AppenderKind.serviceEntry, AppenderKind.sidecarsCheck] := by
  refine ⟨?_, parseAppenders_some_kinds s₁ p o aps h, rfl⟩
  rcases hc : collectRequested (splitComma s₁) {} with e | req
  · simp only [parseAppenders] at h
    rw [hc] at h
    exact absurd h (by simp)
  · simp only [parseAppenders] at h
    rw [hc] at h
    injection h with h
    have hv₁ := collectRequested_all_valid_of_ok _ _ _ hc
    have hv₂ : (splitComma s₂).all validAppenderTok = true := by
      rw [← perm_all validAppenderTok hperm]; exact hv₁
    obtain ⟨req₂, hc₂⟩ := collectRequested_ok_of_all_valid _ {} hv₂
    obtain ⟨e1, e2, e3, e4, e5, e6, e7⟩ := collectRequested_ok_fields _ {} req hc
    obtain ⟨f1, f2, f3, f4, f5, f6, f7⟩ := collectRequested_ok_fields _ {} req₂ hc₂
    have a1 : req₂.deadNode = req.deadNode := by rw [f1, e1, perm_any _ hperm]
    have a2 : req₂.serviceEntry = req.serviceEntry := by rw [f2, e2, perm_any _ hperm]
    have a3 : req₂.istio = req.istio := by rw [f3, e3, perm_any _ hperm]
    have a4 : req₂.responseTime = req.responseTime := by rw [f4, e4, perm_any _ hperm]
    have a5 : req₂.securityPolicy = req.securityPolicy := by rw [f5, e5, perm_any _ hperm]
    have a6 : req₂.sidecarsCheck = req.sidecarsCheck := by rw [f6, e6, perm_any _ hperm]
    have a7 : req₂.unusedNode = req.unusedNode := by rw [f7, e7, perm_any _ hperm]
    have hb : buildAppenders req₂ false p o = buildAppenders req false p o := by
      simp only [buildAppenders, a1, a2, a3, a4, a5, a6, a7]
    simp only [parseAppenders, hc₂]
    rw [hb, h]

/-- Witness for C2: "sidecarsCheck,serviceEntry" and its reversal produce
the same pipeline, whose stage kinds are [ServiceEntry, SidecarsCheck]. -/
theorem parseAppenders_order_invariant_witness :
    parseAppenders (some "serviceEntry,sidecarsCheck") none sampleOptions =
      .ok [Appender.serviceEntry [], Appender.sidecarsCheck] ∧
    [Appender.serviceEntry [], Appender.sidecarsCheck].map Appender.kind =
      fixedAppenderOrder.filter
        (fun k => (splitComma "sidecarsCheck,serviceEntry").any
          (fun tok => trimSpace tok == appenderKindName k)) := by
  have h := parseAppenders_order_invariant "sidecarsCheck,serviceEntry"
      "serviceEntry,sidecarsCheck" none sampleOptions
      [Appender.serviceEntry [], Appender.sidecarsCheck] (by decide) rfl
  exact ⟨h.1, h.2.1⟩

/-- C4: omitting the `appenders` parameter selects all seven stages in fixed
order; supplying it selects exactly the named recognized stages, with empty
tokens ignored (so "" and " " yield an empty pipeline); an unrecognized name
is a BadRequest. -/
theorem parseAppenders_selection (p : Option (String × Option Rat)) (o : Options) :
    (parseAppenders none p o).map (List.map Appender.kind) = .ok fixedAppenderOrder ∧
    (∀ s aps, parseAppenders (some s) p o = .ok aps →
      aps.map Appender.kind = fixedAppenderOrder.filter
        (fun k => (splitComma s).any (fun tok => trimSpace tok == appenderKindName k))) ∧
    parseAppenders (some "") p o = .ok [] ∧
    parseAppenders (some " ") p o = .ok [] ∧
    (∀ s, (splitComma s).all validAppenderTok = false →
      isBadRequest (parseAppenders (some s) p o)) := by
  refine ⟨rfl, fun s aps h => parseAppenders_some_kinds s p o aps h, rfl, rfl, ?_⟩
  intro s hs
  obtain ⟨msg, hmsg⟩ := collectRequested_badRequest (splitComma s) {} hs
  simp [parseAppenders, hmsg, isBadRequest]

/-- Witness for C4: "deadNode" selects exactly the DeadNode stage and
"bogus" is rejected with a BadRequest. -/
theorem parseAppenders_selection_witness :
    [Appender.deadNode].map Appender.kind = fixedAppenderOrder.filter
      (fun k => (splitComma "deadNode").any (fun tok => trimSpace tok == appenderKindName k)) ∧
    isBadRequest (parseAppenders (some "bogus") none sampleOptions) := by
  have h := parseAppenders_selection none sampleOptions
  exact ⟨h.2.1 "deadNode" [Appender.deadNode] rfl, h.2.2.2.2 "bogus" (by decide)⟩

/-- The emission phase only reads the quantile parameter through
`quantileOf`. -/
theorem buildAppenders_quantile_congr (req : RequestedAppenders) (allAppenders : Bool)
    (p p2 : Option (String × Option Rat)) (o : Options)
    (h : quantileOf p = quantileOf p2) :
    buildAppenders req allAppenders p o = buildAppenders req allAppenders p2 o := by
  simp only [buildAppenders, h]

/-- Any ResponseTime stage in an emitted pipeline carries exactly the
resolved quantile and descriptor configuration. -/
theorem buildAppenders_responseTime_mem (req : RequestedAppenders) (allAppenders : Bool)
    (p : Option (String × Option Rat)) (o : Options) (a : Appender)
    (ha : a ∈ buildAppenders req allAppenders p o) (hk : a.kind = .responseTime) :
    a = Appender.responseTime (quantileOf p) o.graphType o.injectServiceNodes
      o.includeIstio o.namespaces o.queryTime := by
  simp only [buildAppenders, List.mem_append] at ha
  rcases ha with ((((((h | h) | h) | h) | h) | h) | h) <;> split at h <;>
    simp_all [Appender.kind]

/-- C8: a present but unparsable `responseTimeQuantile` behaves exactly like
an absent one — the request does not fail and the ResponseTime stage gets
the default quantile constant — while a parseable value overrides the
default. -/
theorem parseAppenders_quantile (sp : Option String) (raw : String) (o : Options) :
    parseAppenders sp (some (raw, none)) o = parseAppenders sp none o ∧
    (∀ p aps a, parseAppenders sp p o = .ok aps → a ∈ aps → a.kind = .responseTime →
      a = Appender.responseTime (quantileOf p) o.graphType o.injectServiceNodes
        o.includeIstio o.namespaces o.queryTime) ∧
    quantileOf (some (raw, none)) = DefaultQuantile ∧
    (∀ q : Rat, quantileOf (some (raw, some q)) = q) := by
  have hq : quantileOf (some (raw, none)) = quantileOf none := rfl
  refine ⟨?_, ?_, rfl, fun q => rfl⟩
  · cases sp with
    | none =>
      simp only [parseAppenders]
      rw [buildAppenders_quantile_congr _ _ _ _ _ hq]
    | some s =>
      simp only [parseAppenders]
      rcases hc : collectRequested (splitComma s) {} with e | req
      · rfl
      · have hb := buildAppenders_quantile_congr req false (some (raw, none)) none o hq
        simp [hb]
  · intro p aps a h hma hk
    cases sp with
    | none =>
      simp only [parseAppenders] at h
      injection h with h
      subst h
      exact buildAppenders_responseTime_mem _ _ _ _ _ hma hk
    | some s =>
      rcases hc : collectRequested (splitComma s) {} with e | req
      · simp only [parseAppenders] at h
        rw [hc] at h
        exact absurd h (by simp)
      · simp only [parseAppenders] at h
        rw [hc] at h
        injection h with h
        subst h
        exact buildAppenders_responseTime_mem _ _ _ _ _ hma hk

/-- Witness for C8: with an unparsable quantile parameter the pipeline
equals the absent-parameter pipeline, and the emitted ResponseTime stage
carries the default quantile. -/
theorem parseAppenders_quantile_witness :
    parseAppenders (some "responseTime") (some ("oops", none)) sampleOptions =
      parseAppenders (some "responseTime") none sampleOptions ∧
    Appender.responseTime DefaultQuantile sampleOptions.graphType
        sampleOptions.injectServiceNodes sampleOptions.includeIstio
        sampleOptions.namespaces sampleOptions.queryTime =
      Appender.responseTime (quantileOf (some ("oops", none))) sampleOptions.graphType
        sampleOptions.injectServiceNodes sampleOptions.includeIstio
        sampleOptions.namespaces sampleOptions.queryTime := by
  have h := parseAppenders_quantile (some "responseTime") "oops" sampleOptions
  refine ⟨h.1, ?_⟩
  exact h.2.1 (some ("oops", none))
    [Appender.responseTime DefaultQuantile sampleOptions.graphType
      sampleOptions.injectServiceNodes sampleOptions.includeIstio
      sampleOptions.namespaces sampleOptions.queryTime]
    (Appender.responseTime DefaultQuantile sampleOptions.graphType
      sampleOptions.injectServiceNodes sampleOptions.includeIstio
      sampleOptions.namespaces sampleOptions.queryTime)
    rfl (by simp) rfl

/-- `strings.Split` never returns an empty slice. -/
theorem splitCommaAux_ne_nil (cs cur : List Char) : splitCommaAux cs cur ≠ [] := by
  induction cs generalizing cur with
  | nil => simp [splitCommaAux]
  | cons c rest ih =>
    simp only [splitCommaAux]
    split
    · simp
    · exact ih _

/-- `splitComma` always yields at least one token. -/
theorem splitComma_ne_nil (s : String) : splitComma s ≠ [] := splitCommaAux_ne_nil s.data []

/-- Storing into the namespace map never shrinks it. -/
theorem insertNamespace_length (m : List (String × NamespaceInfo)) (k : String)
    (v : NamespaceInfo) : m.length ≤ (insertNamespace m k v).length := by
  simp only [insertNamespace]
  split <;> simp

/-- The namespace loop never shrinks its accumulator. -/
theorem processNamespaces_length (tokens : List String)
    (accessible : List (String × Option Int)) (duration queryTime nowNs : Int)
    (init m : List (String × NamespaceInfo))
    (h : processNamespaces tokens accessible duration queryTime nowNs init = .ok m) :
    init.length ≤ m.length := by
  induction tokens generalizing init with
  | nil =>
    simp only [processNamespaces] at h
    injection h with h
    subst h
    exact le_refl _
  | cons tok rest ih =>
    simp only [processNamespaces] at h
    rcases hl : lookupNamespace accessible (trimSpace tok) with _ | ct
    · rw [hl] at h; exact absurd h (by simp)
    · rw [hl] at h
      exact le_trans (insertNamespace_length init (trimSpace tok) _) (ih _ h)

/-- A namespace loop over at least one token yields a non-empty map. -/
theorem processNamespaces_ne_nil (tok : String) (rest : List String)
    (accessible : List (String × Option Int)) (duration queryTime nowNs : Int)
    (m : List (String × NamespaceInfo))
    (h : processNamespaces (tok :: rest) accessible duration queryTime nowNs [] = .ok m) :
    m ≠ [] := by
  simp only [processNamespaces] at h
  rcases hl : lookupNamespace accessible (trimSpace tok) with _ | ct
  · rw [hl] at h; exact absurd h (by simp)
  · rw [hl] at h
    have hle := processNamespaces_length rest accessible duration queryTime nowNs _ m h
    have h1 : 1 ≤ m.length := le_trans (by simp [insertNamespace]) hle
    intro hm
    rw [hm] at h1
    exact absurd h1 (by simp)

/-- The namespace loop never succeeds when some token is unauthorized. -/
theorem processNamespaces_mem_unauth (tokens : List String)
    (accessible : List (String × Option Int)) (duration queryTime nowNs : Int)
    (tok : String) (hmem : tok ∈ tokens)
    (hun : lookupNamespace accessible (trimSpace tok) = none) :
    ∀ init m, processNamespaces tokens accessible duration queryTime nowNs init ≠ .ok m := by
  induction tokens with
  | nil => cases hmem
  | cons t ts ih =>
    intro init m h
    simp only [processNamespaces] at h
    rcases hl : lookupNamespace accessible (trimSpace t) with _ | ct
    · rw [hl] at h; exact absurd h (by simp)
    · rw [hl] at h
      rcases List.mem_cons.mp hmem with rfl | hmem2
      · rw [hl] at hun; exact absurd hun (by simp)
      · exact ih hmem2 _ m h

/-- The namespace loop fails with `Forbidden` naming the first token whose
trimmed form is not in the accessible set. -/
theorem processNamespaces_find_forbidden (tokens : List String)
    (accessible : List (String × Option Int)) (duration queryTime nowNs : Int)
    (tok0 : String)
    (hfind : tokens.find? (fun t => (lookupNamespace accessible (trimSpace t)).isNone) =
      some tok0) :
    ∀ init, processNamespaces tokens accessible duration queryTime nowNs init =
      .error (.forbidden ("Requested namespace [" ++ trimSpace tok0 ++ "] is not accessible.")) := by
  induction tokens with
  | nil => simp at hfind
  | cons t ts ih =>
    intro init
    rcases hl : lookupNamespace accessible (trimSpace t) with _ | ct
    · simp only [List.find?_cons, hl, Option.isNone_none] at hfind
      injection hfind with hfind
      subst hfind
      simp [processNamespaces, hl]
    · simp only [List.find?_cons, hl, Option.isNone_some] at hfind
      simp only [processNamespaces, hl]
      exact ih hfind _

/-- Inversion of a successful `NewOptions` resolution: every validation step
succeeded and the descriptor is assembled exactly from their results. -/
theorem NewOptions_ok_inv (r : Request) (gateway : String → List (String × Option Int))
    (now : Int) (opts : Options) (h : NewOptions r gateway now = .ok opts) :
    ∃ duration graphType groupBy includeIstio injectServiceNodes0 queryTime vendor token
      namespaceMap appenders,
      resolveDuration r.durationParam = .ok duration ∧
      resolveGraphType r.graphTypeParam = .ok graphType ∧
      checkAppGraphType r.app graphType = .ok () ∧
      resolveGroupBy r.groupByParam = .ok groupBy ∧
      resolveBoolParam "includeIstio" r.includeIstioParam defaultIncludeIstio = .ok includeIstio ∧
      resolveBoolParam "injectServiceNodes" r.injectServiceNodesParam
        defaultInjectServiceNodes = .ok injectServiceNodes0 ∧
      resolveQueryTime r.queryTimeParam now = .ok queryTime ∧
      resolveVendor r.vendorParam = .ok vendor ∧
      resolveToken r.tokenCtx = .ok token ∧
      effectiveNamespaces r ≠ "" ∧
      processNamespaces (splitComma (effectiveNamespaces r)) (gateway token) duration
        queryTime (now * 1000000000) [] = .ok namespaceMap ∧
      parseAppenders r.appendersParam r.responseTimeQuantileParam
        { accessibleNamespaces := gateway token
          appenders := []
          includeIstio := includeIstio
          injectServiceNodes :=
            if graphType = GraphTypeService then true else injectServiceNodes0
          namespaces := namespaceMap
          vendor := vendor
          app := r.app
          namespaceVar := r.namespaceVar
          service := r.service
          version := r.version
          workload := r.workload
          duration := duration
          graphType := graphType
          groupBy := groupBy
          queryTime := queryTime } = .ok appenders ∧
      opts =
        { accessibleNamespaces := gateway token
          appenders := appenders
          includeIstio := includeIstio
          injectServiceNodes :=
            if graphType = GraphTypeService then true else injectServiceNodes0
          namespaces := namespaceMap
          vendor := vendor
          app := r.app
          namespaceVar := r.namespaceVar
          service := r.service
          version := r.version
          workload := r.workload
          duration := duration
          graphType := graphType
          groupBy := groupBy
          queryTime := queryTime } := by
  simp only [NewOptions] at h
  rcases h1 : resolveDuration r.durationParam with e | duration
  · simp only [h1] at h; exact absurd h (by simp)
  · simp only [h1] at h
    rcases h2 : resolveGraphType r.graphTypeParam with e | graphType
    · simp only [h2] at h; exact absurd h (by simp)
    · simp only [h2] at h
      rcases h3 : checkAppGraphType r.app graphType with e | u
      · simp only [h3] at h; exact absurd h (by simp)
      · simp only [h3] at h
        rcases h4 : resolveGroupBy r.groupByParam with e | groupBy
        · simp only [h4] at h; exact absurd h (by simp)
        · simp only [h4] at h
          rcases h5 : resolveBoolParam "includeIstio" r.includeIstioParam
              defaultIncludeIstio with e | includeIstio
          · simp only [h5] at h; exact absurd h (by simp)
          · simp only [h5] at h
            rcases h6 : resolveBoolParam "injectServiceNodes" r.injectServiceNodesParam
                defaultInjectServiceNodes with e | injectServiceNodes0
            · simp only [h6] at h; exact absurd h (by simp)
            · simp only [h6] at h
              rcases h7 : resolveQueryTime r.queryTimeParam now with e | queryTime
              · simp only [h7] at h; exact absurd h (by simp)
              · simp only [h7] at h
                rcases h8 : resolveVendor r.vendorParam with e | vendor
                · simp only [h8] at h; exact absurd h (by simp)
                · simp only [h8] at h
                  rcases h9 : resolveToken r.tokenCtx with e | token
                  · simp only [h9] at h; exact absurd h (by simp)
                  · simp only [h9] at h
                    by_cases h10 : effectiveNamespaces r = ""
                    · rw [if_pos h10] at h; exact absurd h (by simp)
                    · rw [if_neg h10] at h
                      rcases h11 : processNamespaces (splitComma (effectiveNamespaces r))
                          (gateway token) duration queryTime (now * 1000000000) [] with e | nsMap
                      · simp only [h11] at h; exact absurd h (by simp)
                      · simp only [h11] at h
                        rcases h12 : parseAppenders r.appendersParam
                            r.responseTimeQuantileParam
                            { accessibleNamespaces := gateway token
                              appenders := []
                              includeIstio := includeIstio
                              injectServiceNodes :=
                                if graphType = GraphTypeService then true
                                else injectServiceNodes0
                              namespaces := nsMap
                              vendor := vendor
                              app := r.app
                              namespaceVar := r.namespaceVar
                              service := r.service
                              version := r.version
                              workload := r.workload
                              duration := duration
                              graphType := graphType
                              groupBy := groupBy
                              queryTime := queryTime } with e | appenders
                        · simp only [h12] at h; exact absurd h (by simp)
                        · simp only [h12] at h
                          injection h with h
                          cases u
                          exact ⟨duration, graphType, groupBy, includeIstio,
                            injectServiceNodes0, queryTime, vendor, token, nsMap, appenders,
                            rfl, rfl, h3, rfl, rfl, rfl, rfl, rfl, rfl, h10, h11, h12, h.symm⟩

/-- C1: `resolveNamespaceDuration` returns the requested duration unchanged
when the namespace creation time is the zero time; otherwise, with reference
instant `ref` (`queryTime` if non-zero, else now), it returns
`min(requested, ref - created)`, and in particular a negative lifetime is
returned as-is rather than treated as an error. -/
theorem resolveNamespaceDuration_spec (d queryTime nowNs : Int) :
    resolveNamespaceDuration none d queryTime nowNs = d ∧
    (∀ created : Int,
      resolveNamespaceDuration (some created) d queryTime nowNs =
        min d ((if queryTime ≠ 0 then queryTime * 1000000000 else nowNs) - created)) ∧
    (∀ created : Int, 0 < d →
      (if queryTime ≠ 0 then queryTime * 1000000000 else nowNs) - created < 0 →
      resolveNamespaceDuration (some created) d queryTime nowNs =
        (if queryTime ≠ 0 then queryTime * 1000000000 else nowNs) - created) := by
  refine ⟨rfl, ?_, ?_⟩
  · intro created
    simp only [resolveNamespaceDuration]
    split <;> omega
  · intro created hd hneg
    simp only [resolveNamespaceDuration]
    split at hneg <;> simp_all <;> omega

/-- Witness for C1 at concrete inputs: unset creation time is not clamped;
a 5-minute-old namespace clamps a 10-minute request; a namespace created
after the reference instant yields the negative lifetime as-is. -/
theorem resolveNamespaceDuration_spec_witness :
    resolveNamespaceDuration none 600000000000 7 123 = 600000000000 ∧
    resolveNamespaceDuration (some 30) 10 0 25 = -5 := by
  refine ⟨(resolveNamespaceDuration_spec 600000000000 7 123).1, ?_⟩
  have h := (resolveNamespaceDuration_spec 10 0 25).2.2 30 (by norm_num) (by norm_num)
  norm_num at h
  exact h

/-- C5: a successfully resolved request with `graphType=service` always has
`injectServiceNodes=true` in its descriptor, even if the client explicitly
passed `injectServiceNodes=false`. -/
theorem NewOptions_service_forces_injection (r : Request)
    (gateway : String → List (String × Option Int)) (now : Int) (opts : Options)
    (h : NewOptions r gateway now = .ok opts) (hsvc : r.graphTypeParam = GraphTypeService) :
    opts.injectServiceNodes = true := by
  obtain ⟨duration, graphType, groupBy, includeIstio, injectServiceNodes0, queryTime, vendor,
    token, nsMap, appenders, h1, h2, h3, h4, h5, h6, h7, h8, h9, h10, h11, h12, h13⟩ :=
    NewOptions_ok_inv r gateway now opts h
  have hgt : graphType = GraphTypeService := by
    rw [hsvc] at h2
    have hr : resolveGraphType GraphTypeService = .ok GraphTypeService := rfl
    rw [hr] at h2
    injection h2 with h2
    exact h2.symm
  subst h13
  simp [hgt]

/-- Witness for C5: the concrete service-graph request with an explicit
`injectServiceNodes=false` still resolves with injection forced on. -/
theorem NewOptions_service_forces_injection_witness :
    (NewOptions svcRequest sampleGateway 1700000000).map Options.injectServiceNodes =
      .ok true := by
  have hok : (NewOptions svcRequest sampleGateway 1700000000).isOk = true := by decide
  obtain ⟨opts, hopts⟩ := exists_ok_of_isOk hok
  rw [hopts]
  simp [Except.map,
    NewOptions_service_forces_injection svcRequest sampleGateway 1700000000 opts hopts rfl]

/-- C7: a successfully returned descriptor always has a non-empty
target-namespace map. -/
theorem NewOptions_namespaces_nonempty (r : Request)
    (gateway : String → List (String × Option Int)) (now : Int) (opts : Options)
    (h : NewOptions r gateway now = .ok opts) :
    opts.namespaces ≠ [] := by
  obtain ⟨duration, graphType, groupBy, includeIstio, injectServiceNodes0, queryTime, vendor,
    token, nsMap, appenders, h1, h2, h3, h4, h5, h6, h7, h8, h9, h10, h11, h12, h13⟩ :=
    NewOptions_ok_inv r gateway now opts h
  subst h13
  rcases hsp : splitComma (effectiveNamespaces r) with _ | ⟨tok, rest⟩
  · exact absurd hsp (splitComma_ne_nil _)
  · rw [hsp] at h11
    exact processNamespaces_ne_nil tok rest (gateway token) duration queryTime
      (now * 1000000000) nsMap h11

/-- Witness for C7: a concrete successful resolution has a non-empty
namespace map. -/
theorem NewOptions_namespaces_nonempty_witness :
    (NewOptions overrideRequest sampleGateway 1700000000).map
      (fun o => o.namespaces.isEmpty) = .ok false := by
  have hok : (NewOptions overrideRequest sampleGateway 1700000000).isOk = true := by decide
  obtain ⟨opts, hopts⟩ := exists_ok_of_isOk hok
  have hne := NewOptions_namespaces_nonempty overrideRequest sampleGateway 1700000000 opts hopts
  rw [hopts]
  rcases hl : opts.namespaces with _ | ⟨a, l⟩
  · exact absurd hl hne
  · simp [Except.map, hl]

/-- C10: when the namespace path variable is non-empty the `namespaces`
query parameter is completely ignored — resolution produces identical
results whatever that parameter holds. -/
theorem NewOptions_pathVar_overrides (r : Request)
    (gateway : String → List (String × Option Int)) (now : Int) (s : String)
    (h : r.namespaceVar ≠ "") :
    NewOptions r gateway now = NewOptions { r with namespacesParam := s } gateway now := by
  have hb : (r.namespaceVar != "") = true := by simp [bne, h]
  have he : effectiveNamespaces { r with namespacesParam := s } = effectiveNamespaces r := by
    simp [effectiveNamespaces, hb]
  simp only [NewOptions, he]

/-- Witness for C10: with the `bookinfo` path variable set, replacing the
`namespaces` query parameter by unauthorized junk changes nothing. -/
theorem NewOptions_pathVar_overrides_witness :
    NewOptions overrideRequest sampleGateway 1700000000 =
      NewOptions { overrideRequest with namespacesParam := "other,unauthorized" }
        sampleGateway 1700000000 :=
  NewOptions_pathVar_overrides overrideRequest sampleGateway 1700000000
    "other,unauthorized" (by decide)

/-- C6: a request naming a namespace outside the accessible set never
returns a descriptor, and — when every earlier validation step passes — it
fails with `Forbidden` naming the first such namespace. -/
theorem NewOptions_forbidden (r : Request)
    (gateway : String → List (String × Option Int)) (now : Int) (token : String)
    (htok : resolveToken r.tokenCtx = .ok token)
    (tok : String) (hmem : tok ∈ splitComma (effectiveNamespaces r))
    (hunauth : lookupNamespace (gateway token) (trimSpace tok) = none) :
    (∀ opts, NewOptions r gateway now ≠ .ok opts) ∧
    (preNamespaceChecksPass r now = true → effectiveNamespaces r ≠ "" →
      ∀ tok0, (splitComma (effectiveNamespaces r)).find?
          (fun t => (lookupNamespace (gateway token) (trimSpace t)).isNone) = some tok0 →
      NewOptions r gateway now =
        .error (.forbidden ("Requested namespace [" ++ trimSpace tok0 ++
          "] is not accessible."))) := by
  constructor
  · intro opts h
    obtain ⟨duration, graphType, groupBy, includeIstio, injectServiceNodes0, queryTime,
      vendor, tk, nsMap, appenders, h1, h2, h3, h4, h5, h6, h7, h8, h9, h10, h11, h12, h13⟩ :=
      NewOptions_ok_inv r gateway now opts h
    rw [htok] at h9
    injection h9 with h9
    subst h9
    exact processNamespaces_mem_unauth (splitComma (effectiveNamespaces r)) (gateway token)
      duration queryTime (now * 1000000000) tok hmem hunauth [] nsMap h11
  · intro hpre hne tok0 hfind
    simp only [preNamespaceChecksPass, Bool.and_eq_true] at hpre
    obtain ⟨⟨⟨⟨⟨⟨hd, hgt⟩, hgb⟩, hii⟩, hisn⟩, hqt⟩, hv⟩ := hpre
    obtain ⟨duration, hdur⟩ := exists_ok_of_isOk hd
    rcases hg : resolveGraphType r.graphTypeParam with e | gt
    · simp only [hg] at hgt
      exact absurd hgt (by simp)
    · simp only [hg] at hgt
      obtain ⟨u, hchk⟩ := exists_ok_of_isOk hgt
      cases u
      obtain ⟨groupBy, hgb2⟩ := exists_ok_of_isOk hgb
      obtain ⟨ii, hii2⟩ := exists_ok_of_isOk hii
      obtain ⟨isn, hisn2⟩ := exists_ok_of_isOk hisn
      obtain ⟨qt, hqt2⟩ := exists_ok_of_isOk hqt
      obtain ⟨v, hv2⟩ := exists_ok_of_isOk hv
      have hproc := processNamespaces_find_forbidden (splitComma (effectiveNamespaces r))
        (gateway token) duration qt (now * 1000000000) tok0 hfind []
      simp only [NewOptions, hdur, hg, hchk, hgb2, hii2, hisn2, hqt2, hv2, htok,
        if_neg hne, hproc]

/-- Witness for C6: requesting "bookinfo, other" when only `bookinfo` and
`istio-system` are accessible fails with `Forbidden` naming `other`. -/
theorem NewOptions_forbidden_witness :
    NewOptions forbiddenRequest sampleGateway 1700000000 =
      .error (.forbidden ("Requested namespace [" ++ trimSpace " other" ++
        "] is not accessible.")) := by
  have h := NewOptions_forbidden forbiddenRequest sampleGateway 1700000000 "token" rfl
    " other" (by decide) (by decide)
  exact h.2 (by decide) (by decide) " other" (by decide)

/-- C3 counterexample: a request with the `service` node-selector path
variable set and an explicit `graphType=workload` resolves successfully —
it is not rejected with `BadRequest` as the claim states. -/
theorem NewOptions_nodeSelector_counterexample :
    (NewOptions workloadServiceRequest sampleGateway 1700000000).isOk = true ∧
    ¬ isBadRequest (NewOptions workloadServiceRequest sampleGateway 1700000000) := by
  exact ⟨by decide, by decide⟩

/-- C3 amended: only the `app` node-selector path variable restricts the
graph type — when `app` is set and the resolved graph type is neither `app`
nor `versionedApp`, resolution fails with the node-detail `BadRequest`. -/
theorem NewOptions_app_graphType_restriction (r : Request)
    (gateway : String → List (String × Option Int)) (now : Int) (gt : String)
    (hdur : (resolveDuration r.durationParam).isOk = true)
    (hgt : resolveGraphType r.graphTypeParam = .ok gt)
    (happ : r.app ≠ "") (h1 : gt ≠ GraphTypeApp) (h2 : gt ≠ GraphTypeVersionedApp) :
    NewOptions r gateway now = .error (.badRequest ("Invalid graphType [" ++ gt ++
      "]. This node detail graph supports only graphType app or versionedApp.")) := by
  obtain ⟨d, hd⟩ := exists_ok_of_isOk hdur
  have hchk : checkAppGraphType r.app gt = .error (.badRequest ("Invalid graphType [" ++
      gt ++ "]. This node detail graph supports only graphType app or versionedApp.")) := by
    unfold checkAppGraphType
    rw [if_pos ⟨happ, h1, h2⟩]
  simp only [NewOptions, hd, hgt, hchk]

/-- Witness for the amended C3: `app=reviews` with `graphType=workload` is
rejected with the node-detail `BadRequest`. -/
theorem NewOptions_app_graphType_restriction_witness :
    NewOptions appWorkloadRequest sampleGateway 1700000000 =
      .error (.badRequest ("Invalid graphType [" ++ GraphTypeWorkload ++
        "]. This node detail graph supports only graphType app or versionedApp.")) :=
  NewOptions_app_graphType_restriction appWorkloadRequest sampleGateway 1700000000
    GraphTypeWorkload (by decide) rfl (by decide) (by decide) (by decide)

/-- C9 counterexample: the spec's end-to-end example request
(`app=reviews`, `namespace=bookinfo`, `graphType=service`) does not resolve
successfully — the app node-detail check rejects it with `BadRequest`. -/
theorem NewOptions_node_example_counterexample :
    NewOptions appServiceRequest sampleGateway 1700000000 =
      .error (.badRequest
        "Invalid graphType [service]. This node detail graph supports only graphType app or versionedApp.") := by
  decide

/-- C9 amended: the `app=reviews` example fails with `BadRequest`; with the
`service` path variable instead (`service=reviews`, `namespace=bookinfo`,
`graphType=service`) resolution succeeds, the descriptor is classified as a
node-detail graph, `injectServiceNodes=true` is forced, and its UnusedNode
stage is configured with IsNodeGraph=true. -/
theorem NewOptions_node_example_amended :
    NewOptions appServiceRequest sampleGateway 1700000000 =
      .error (.badRequest
        "Invalid graphType [service]. This node detail graph supports only graphType app or versionedApp.") ∧
    (NewOptions nodeServiceRequest sampleGateway 1700000000).map
      (fun o => (GetGraphKind o == graphKindNode) && o.injectServiceNodes &&
        o.appenders.contains (Appender.unusedNode GraphTypeService true)) = .ok true := by
  exact ⟨by decide, by decide⟩

end Kiali
